import Mathlib

/-!
Verification of the coding-ai-agent repository: a shallow embedding of the
request validation model, git service, docker service, testing service, and
the workflow engine state machine, together with theorems settling the
specified claims.
-/

namespace CodingAgent

/-! ## Python string primitives

Python string operations used by the sources, embedded over `List Char`:
`str.split()` with no argument splits on runs of whitespace and drops empty
pieces, `str.strip()` removes leading and trailing whitespace, `str.lower()`
lowercases every character.
-/

/-- Characters treated as whitespace by Python `str.split()` and `str.strip()`. -/
def isPyWS (c : Char) : Bool :=
  c = ' ' || c = '\t' || c = '\n' || c = '\r' || c = '\x0b' || c = '\x0c'

/-- Accumulating splitter behind `pySplit`: `acc` holds the reversed current word. -/
def pySplitChars (acc : List Char) : List Char → List (List Char)
  | [] => if acc.isEmpty then [] else [acc.reverse]
  | c :: cs =>
    if isPyWS c then
      if acc.isEmpty then pySplitChars [] cs
      else acc.reverse :: pySplitChars [] cs
    else
      pySplitChars (c :: acc) cs

/-- Embedding of Python `s.split()`: whitespace-separated words, empties dropped. -/
def pySplit (s : String) : List String :=
  (pySplitChars [] s.data).map fun l => ⟨l⟩

/-- Embedding of Python `s.strip()`. -/
def pyStrip (s : String) : String :=
  ⟨((s.data.dropWhile isPyWS).reverse.dropWhile isPyWS).reverse⟩

/-- Embedding of Python `s.lower()` (ASCII lowering suffices for the inputs used). -/
def lowerStr (s : String) : String :=
  ⟨s.data.map Char.toLower⟩

/-- Python `sep.join(parts)`. -/
def pyJoin (sep : String) : List String → String
  | [] => ""
  | [x] => x
  | x :: y :: xs => x ++ sep ++ pyJoin sep (y :: xs)

/-- Boolean list-prefix test used by the substring search `occurs`. -/
def isPre : List Char → List Char → Bool
  | [], _ => true
  | _ :: _, [] => false
  | a :: as, b :: bs => a = b && isPre as bs

/-- Boolean substring search: `occurs needle hay` holds when `needle` appears
contiguously inside `hay`. -/
def occurs (needle : List Char) : List Char → Bool
  | [] => needle.isEmpty
  | c :: cs => isPre needle (c :: cs) || occurs needle cs

/-! ## Request validation (src/coding_agent/models/requests.py)

Embedding of `CodingRequest.validate_requirements` and of the pydantic field
constraints on `requirements` (`min_length=10`, `max_length=2000`). A
`ValidationError` is modelled as `Except.error` carrying the message.
-/

/-- Source list `vague_indicators` of `CodingRequest.validate_requirements`. -/
def vague_indicators : List String :=
  ["make better", "improve", "faster", "optimize",
   "fix", "enhance", "update", "modify"]

/-- Embedding of `CodingRequest.validate_requirements` (requests.py lines 85 to 106):
strip, split on whitespace after lowercasing, reject fewer than 5 words, then
reject when every word longer than 3 characters lies in `vague_indicators`. -/
def validate_requirements (v : String) : Except String String :=
  let v := pyStrip v
  let words := pySplit (lowerStr v)
  if words.length < 5 then
    Except.error "Requirements must be more specific (at least 5 words)"
  else if (words.filter (fun w => 3 < w.length)).all
            (fun w => vague_indicators.contains w) then
    Except.error "Requirements are too vague. Please specify what exactly needs to be implemented."
  else
    Except.ok v

/-- Embedding of the full pydantic validation of the `requirements` field: the
declared `min_length=10` and `max_length=2000` constraints run before the
custom validator `validate_requirements`. -/
def validate_coding_request (v : String) : Except String String :=
  if v.length < 10 then
    Except.error "ensure this value has at least 10 characters"
  else if 2000 < v.length then
    Except.error "ensure this value has at most 2000 characters"
  else
    validate_requirements v

/-! ## Task status and the workflow engine state machine

The `TaskStatus` enum is embedded from src/coding_agent/models/responses.py.
The workflow engine module itself (core/workflow_engine.py) is absent from the
available sources, so the engine registry, the per-state progress table and
the engine loop are modelled from the spec.
-/

/-- Embedding of the `TaskStatus` enum (responses.py lines 14 to 27). -/
inductive TaskStatus where
  | INITIATED
  | ANALYZING
  | PLANNING
  | CLONING
  | CODING
  | TESTING
  | VALIDATING
  | COMMITTING
  | PR_CREATING
  | COMPLETED
  | FAILED
  | CANCELLED
deriving DecidableEq, Repr, Fintype

/-- Modelled from the spec: the Task Record projection the claims need, namely
the status and the engine-owned integer progress percentage. The full record
lives in the missing core/workflow_engine.py module. -/
structure TaskRecord where
  status : TaskStatus
  progress_percentage : Nat
deriving DecidableEq, Repr

/-- Modelled from the spec: terminal statuses are `COMPLETED`, `FAILED` and
`CANCELLED`; every other status has a step handler and a successor. -/
def terminalStatus : TaskStatus → Bool
  | .COMPLETED => true
  | .FAILED => true
  | .CANCELLED => true
  | _ => false

/-- Modelled from the spec: the forward order of the state machine,
`INITIATED → ANALYZING → PLANNING → CLONING → CODING → TESTING → VALIDATING →
COMMITTING → PR_CREATING → COMPLETED`, from the missing workflow engine. -/
def nextStatus : TaskStatus → Option TaskStatus
  | .INITIATED => some .ANALYZING
  | .ANALYZING => some .PLANNING
  | .PLANNING => some .CLONING
  | .CLONING => some .CODING
  | .CODING => some .TESTING
  | .TESTING => some .VALIDATING
  | .VALIDATING => some .COMMITTING
  | .COMMITTING => some .PR_CREATING
  | .PR_CREATING => some .COMPLETED
  | .COMPLETED => none
  | .FAILED => none
  | .CANCELLED => none

/-- Modelled from the spec: the fixed per-state progress table of the missing
workflow engine (`ANALYZING`=10, `PLANNING`=20, `CLONING`=30, `CODING`=50,
`TESTING`=70, `VALIDATING`=85, `COMMITTING`=92, `PR_CREATING`=97,
`COMPLETED`=100). Terminal failure states keep the previous value, so their
table entries are never consulted. -/
def progressTable : TaskStatus → Nat
  | .INITIATED => 0
  | .ANALYZING => 10
  | .PLANNING => 20
  | .CLONING => 30
  | .CODING => 50
  | .TESTING => 70
  | .VALIDATING => 85
  | .COMMITTING => 92
  | .PR_CREATING => 97
  | .COMPLETED => 100
  | .FAILED => 0
  | .CANCELLED => 0

/-- Modelled from the spec: the Task Record constructed by
`start_coding_workflow`, in `INITIATED` status with 0 percent progress. -/
def initRecord : TaskRecord :=
  { status := .INITIATED, progress_percentage := 0 }

/-- Modelled from the spec: one iteration of the engine loop of the missing
workflow engine. A step handler either succeeds, advancing the status to its
successor and setting the progress from the fixed table, or fails fatally,
moving to `FAILED` while preserving the progress, or observes a cancellation
signal, moving to `CANCELLED` while preserving the progress. -/
inductive WStep : TaskRecord → TaskRecord → Prop
  | advance (r : TaskRecord) (s : TaskStatus) (h : nextStatus r.status = some s) :
      WStep r { status := s, progress_percentage := progressTable s }
  | fail (r : TaskRecord) (h : terminalStatus r.status = false) :
      WStep r { status := .FAILED, progress_percentage := r.progress_percentage }
  | cancel (r : TaskRecord) (h : terminalStatus r.status = false) :
      WStep r { status := .CANCELLED, progress_percentage := r.progress_percentage }

/-- Modelled from the spec: Task Records reachable by the engine loop from the
freshly created record. -/
def ReachableRecord (r : TaskRecord) : Prop :=
  Relation.ReflTransGen WStep initRecord r

/-- Modelled from the spec: `start_coding_workflow` of the missing workflow
engine. It validates the request text, and only on success allocates a Task
Record in `INITIATED` status and registers it in the active-task registry;
a validation failure returns the error and leaves the registry untouched.
The fresh task identifier is passed in explicitly, standing for the random
identifier generation. -/
def start_coding_workflow (registry : List (String × TaskRecord))
    (taskId : String) (requirements : String) :
    Except String TaskRecord × List (String × TaskRecord) :=
  match validate_coding_request requirements with
  | .error e => (Except.error e, registry)
  | .ok _ => (Except.ok initRecord, registry ++ [(taskId, initRecord)])

/-! ## Feature naming and complexity heuristics

Both `_extract_feature_name` and `_estimate_complexity` live in the missing
core/workflow_engine.py module; they are modelled from spec section 4.3.
-/

/-- Modelled from the spec: the stoplist of generic verbs and filler words
stripped by `_extract_feature_name`; three-letter words or shorter are dropped
by the significance filter below in any case. -/
def stop_words : List String :=
  ["add", "create", "implement", "the", "and", "with", "for"]

/-- Modelled from the spec: `_extract_feature_name` of the missing workflow
engine. Lowercase the requirement, keep the significant words (longer than 3
characters and not on the stoplist) in order, hyphen-join, and truncate to a
bounded length (the first three significant words) for use as a branch-name
component. -/
def extract_feature_name (requirements : String) : String :=
  let ws := pySplit (lowerStr requirements)
  let significant := ws.filter (fun w => 3 < w.length && !(stop_words.contains w))
  pyJoin "-" (significant.take 3)

/-- Modelled from the spec: the multi-subsystem keyword set consulted by
`_estimate_complexity` (auth, database, integration, caching and related
concern keywords). -/
def complexity_keywords : List String :=
  ["authentication", "jwt", "role-based", "database", "integration", "caching", "audit"]

/-- Modelled from the spec: `_estimate_complexity` of the missing workflow
engine, a rule table over the requirement word count and keyword set
membership: many distinct subsystem keywords or a long multi-concern
requirement escalate to high, a single keyword or a moderately long
requirement gives medium, short single-action requirements are low. -/
def estimate_complexity (requirements : String) : String :=
  let lower := lowerStr requirements
  let wordCount := (pySplit lower).length
  let hits := (complexity_keywords.filter (fun k => occurs k.data lower.data)).length
  if 3 ≤ hits || 15 < wordCount then "high"
  else if 1 ≤ hits || 8 < wordCount then "medium"
  else "low"

/-! ## Git service (src/coding_agent/services/git_service.py)

`generate_commit_message` is a pure computation and is embedded directly.
`commit_changes` drives GitPython; the repository is abstracted to the list
of commits on the current branch plus the set of pending (unstaged) changed
paths, with `index.add` staging paths and `index.diff("HEAD")` nonempty
exactly when some change is staged.
-/

/-- Embedding of the summary line of `GitService.generate_commit_message`
(git_service.py line 382): `feat:` plus the first 50 characters of the
requirement, with a trailing ellipsis when the requirement is longer. -/
def commit_summary (requirements : String) : String :=
  if 50 < requirements.length then
    "feat: " ++ (⟨requirements.data.take 50⟩ : String) ++ "..."
  else
    "feat: " ++ requirements

/-- Embedding of the detail lines of `GitService.generate_commit_message`
(git_service.py lines 385 to 396): the implementation line, then, when files
changed, a count line, a bullet per file limited to the first five, and a
summary line for the remainder, then a blank line and the attribution line. -/
def commit_details (files_changed : List String) (implementation_type : String) :
    List String :=
  ["- Implemented " ++ implementation_type ++ " based on requirements"]
  ++ (if files_changed.isEmpty then []
      else
        ["- Modified " ++ toString files_changed.length ++ " file(s):"]
        ++ (files_changed.take 5).map (fun f => "  - " ++ f)
        ++ (if 5 < files_changed.length then
              ["  - ... and " ++ toString (files_changed.length - 5) ++ " more files"]
            else []))
  ++ ["", "Generated by Coding AI Agent"]

/-- Embedding of `GitService.generate_commit_message` (git_service.py lines
357 to 404): the summary line, a blank line, then the newline-joined detail
lines. The `key_words` list computed by the source is dead code with no
effect on the result and is omitted. -/
def generate_commit_message (requirements : String) (files_changed : List String)
    (implementation_type : String) : String :=
  commit_summary requirements ++ "\n\n" ++ pyJoin "\n" (commit_details files_changed implementation_type)

/-- Abstraction of one git commit for the `commit_changes` embedding. -/
structure GitCommit where
  hash : String
  message : String
  files : List String
deriving DecidableEq, Repr

/-- Abstraction of the local repository state seen by `GitService.commit_changes`:
the commit history of the checked-out branch and the pending changed paths of
the working tree that `index.add` can stage. -/
structure RepoState where
  commits : List GitCommit
  pending_changes : List String
deriving DecidableEq, Repr

/-- Paths staged by the add phase of `GitService.commit_changes` (git_service.py
lines 157 to 162): with an explicit file list, the listed paths that actually
carry a pending change; otherwise `git add -A` stages every pending change.
`index.diff("HEAD")` is nonempty exactly when this list is nonempty. -/
def staged_for (st : RepoState) (file_paths : Option (List String)) : List String :=
  match file_paths with
  | none => st.pending_changes
  | some fps => fps.filter (fun f => st.pending_changes.contains f)

/-- Embedding of `GitService.commit_changes` (git_service.py lines 137 to 177):
stage, then return the empty string leaving the history unchanged when
`index.diff("HEAD")` is empty, otherwise append a commit and return its hash
(the hash is modelled deterministically from the history length). -/
def commit_changes (st : RepoState) (commit_message : String)
    (file_paths : Option (List String)) : String × RepoState :=
  let staged := staged_for st file_paths
  if staged.isEmpty then
    ("", st)
  else
    let h := "commit-" ++ toString st.commits.length
    (h, { commits := st.commits ++ [{ hash := h, message := commit_message, files := staged }],
          pending_changes := st.pending_changes.filter (fun f => !staged.contains f) })

/-! ## Docker service (src/coding_agent/services/docker_service.py)

`DockerEnvironmentService.execute_command` wraps the container exec call in a
try block: the underlying call either completes with an exit code and an
optional output buffer, times out, or raises; each case is converted into a
`CommandResult` and nothing escapes to the caller.
-/

/-- Embedding of the `CommandResult` model (models/testing.py lines 191 to 203);
the duration is an integer because the source only ever stores 0 or the
integer timeout in `execute_command`. -/
structure CommandResult where
  exit_code : Int
  stdout : String
  stderr : String
  command : String
  duration_seconds : Nat
deriving DecidableEq, Repr

/-- Outcome of the awaited `container.exec_run` call inside
`DockerEnvironmentService.execute_command`: normal completion with exit code
and optional output, an `asyncio.TimeoutError`, or any other exception
(including the docker client being unavailable). -/
inductive ExecOutcome where
  | completed (exit_code : Int) (output : Option String)
  | timedOut
  | raised (msg : String)
deriving DecidableEq, Repr

/-- Embedding of `DockerEnvironmentService.execute_command` (docker_service.py
lines 164 to 233), parameterised by the outcome of the underlying exec call.
Completion decodes the output into stdout with empty stderr; a timeout yields
exit code 124, empty stdout and the timeout message; any other exception
yields exit code 1 with the exception text in stderr. -/
def execute_command (outcome : ExecOutcome) (command : String) (timeoutSecs : Nat) :
    CommandResult :=
  match outcome with
  | .completed ec out =>
    { exit_code := ec, stdout := out.getD "", stderr := "",
      command := command, duration_seconds := 0 }
  | .timedOut =>
    { exit_code := 124, stdout := "",
      stderr := "Command timed out after " ++ toString timeoutSecs ++ " seconds",
      command := command, duration_seconds := timeoutSecs }
  | .raised m =>
    { exit_code := 1, stdout := "", stderr := m,
      command := command, duration_seconds := 0 }

/-! ## Testing service (src/coding_agent/services/testing_service.py)

`TestingService.create_test_environment` never raises: container creation
returning `None` is recorded as a `FAILED` environment, and any exception in
the setup path is caught and converted into a failure-marked environment
record. The TESTING step handler that consumes the record lives in the
missing workflow engine and is modelled from the spec.
-/

/-- Embedding of the `EnvironmentStatus` enum (models/testing.py lines 17 to 26). -/
inductive EnvironmentStatus where
  | CREATING
  | READY
  | INSTALLING_DEPS
  | STARTING_SERVICE
  | SERVICE_RUNNING
  | RUNNING_TESTS
  | FAILED
  | CLEANED_UP
deriving DecidableEq, Repr

/-- Projection of a created Docker container used by
`TestingService.create_test_environment`: its id, name and status. -/
structure Container where
  id : String
  name : String
  status : String
deriving DecidableEq, Repr

/-- Embedding of the `TestEnvironment` model (models/testing.py lines 37 to 67),
restricted to the fields `create_test_environment` populates. -/
structure TestEnvironment where
  env_id : String
  task_id : String
  container_id : Option String
  status : EnvironmentStatus
  target_service : String
  python_version : String
  workspace_path : Option String
  container_info : Option Container
  error_message : Option String
deriving DecidableEq, Repr

/-- Outcome of the setup path inside `TestingService.create_test_environment`:
either the path runs to the container-creation call, which returns a container
or `none` (the docker service catches its own exceptions), or some earlier
operation such as the workspace creation raises. -/
inductive SetupOutcome where
  | ok (container : Option Container)
  | raised (msg : String)
deriving DecidableEq, Repr

/-- Embedding of `TestingService.create_test_environment` (testing_service.py
lines 58 to 135), parameterised by the random environment-id suffix and the
setup outcome. A raised exception produces the `failed-` record of the except
branch; a `none` container produces a `FAILED` record with the container
failure message; otherwise the record is `READY`. In no case does the
function raise. -/
def create_test_environment (task_id target_service python_version : String)
    (suffix : String) (outcome : SetupOutcome) : TestEnvironment :=
  match outcome with
  | .raised m =>
    { env_id := "failed-" ++ task_id, task_id := task_id, container_id := none,
      status := .FAILED, target_service := target_service,
      python_version := python_version, workspace_path := none,
      container_info := none, error_message := some m }
  | .ok container =>
    let env_id := "test-env-" ++ task_id ++ "-" ++ suffix
    let workspace := "testing/" ++ env_id
    match container with
    | some c =>
      { env_id := env_id, task_id := task_id, container_id := some c.id,
        status := .READY, target_service := target_service,
        python_version := python_version, workspace_path := some workspace,
        container_info := some c, error_message := none }
    | none =>
      { env_id := env_id, task_id := task_id, container_id := none,
        status := .FAILED, target_service := target_service,
        python_version := python_version, workspace_path := some workspace,
        container_info := none, error_message := some "Failed to create Docker container" }

/-- Modelled from the spec: the TESTING step handler of the missing workflow
engine. The step records `testing_failed=true` into the statistics of the
task when the sandbox environment is failure-marked, and in every case
returns `VALIDATING` as the next state — the failure policy of this step is
soft and never aborts the workflow. -/
def testing_step (env : TestEnvironment) (statistics : List (String × Bool)) :
    TaskStatus × List (String × Bool) :=
  if env.status = EnvironmentStatus.FAILED then
    (TaskStatus.VALIDATING, statistics ++ [("testing_failed", true)])
  else
    (TaskStatus.VALIDATING, statistics)

/-- Modelled from the spec: the invariant the engine loop maintains on a Task
Record — the progress percentage stays within 0 to 100, equals 100 at
`COMPLETED`, and agrees with the fixed table while the task is live. -/
def TaskInv (r : TaskRecord) : Prop :=
  r.progress_percentage ≤ 100 ∧
  (r.status = TaskStatus.COMPLETED → r.progress_percentage = 100) ∧
  (terminalStatus r.status = false → r.progress_percentage = progressTable r.status)

/-! ## Helper lemmas -/

theorem isPre_self_append (n t : List Char) : isPre n (n ++ t) = true := by
  induction n with
  | nil => rfl
  | cons a as ih => simp [isPre, ih]

theorem occurs_self_append (n t : List Char) : occurs n (n ++ t) = true := by
  cases n with
  | nil =>
    cases t with
    | nil => rfl
    | cons c cs => simp [occurs, isPre]
  | cons a as =>
    have h : isPre (a :: as) (a :: (as ++ t)) = true := by
      simpa using isPre_self_append (a :: as) t
    simp [occurs, h]

theorem occurs_append_left (n s t : List Char) (h : occurs n t = true) :
    occurs n (s ++ t) = true := by
  induction s with
  | nil => simpa using h
  | cons c cs ih => simp [occurs, ih]

theorem str_data_append (s t : String) : (s ++ t).data = s.data ++ t.data := by
  cases s
  cases t
  rfl

theorem occurs_pyJoin (sep : String) (L : List String) (a : String) (h : a ∈ L) :
    occurs a.data (pyJoin sep L).data = true := by
  induction L with
  | nil => cases h
  | cons x xs ih =>
    cases xs with
    | nil =>
      have hx : a = x := by simpa using h
      subst hx
      have := occurs_self_append a.data []
      simpa [pyJoin] using this
    | cons y ys =>
      rcases List.mem_cons.mp h with hx | hmem
      · subst hx
        show occurs a.data (a ++ sep ++ pyJoin sep (y :: ys)).data = true
        rw [str_data_append, str_data_append, List.append_assoc]
        exact occurs_self_append a.data _
      · show occurs a.data (x ++ sep ++ pyJoin sep (y :: ys)).data = true
        rw [str_data_append]
        exact occurs_append_left _ _ _ (ih hmem)

theorem progressTable_le_100 : ∀ s : TaskStatus, progressTable s ≤ 100 := by decide

theorem nextStatus_nonterminal :
    ∀ st s : TaskStatus, nextStatus st = some s → terminalStatus st = false := by decide

theorem nextStatus_progress_le :
    ∀ st s : TaskStatus, nextStatus st = some s →
      progressTable st ≤ progressTable s := by decide

theorem nextStatus_not_terminal_target :
    ∀ st s : TaskStatus, nextStatus st = some s →
      s ≠ TaskStatus.FAILED ∧ s ≠ TaskStatus.CANCELLED := by decide

theorem wstep_inv {r r' : TaskRecord} (hr : TaskInv r) (h : WStep r r') : TaskInv r' := by
  cases h with
  | advance s hs =>
    refine ⟨progressTable_le_100 s, ?_, fun _ => rfl⟩
    intro hc
    have hc2 : s = TaskStatus.COMPLETED := hc
    subst hc2
    rfl
  | fail hterm =>
    refine ⟨hr.1, ?_, ?_⟩
    · intro hc
      exact absurd (show TaskStatus.FAILED = TaskStatus.COMPLETED from hc) (by decide)
    · intro hb
      exact absurd (show terminalStatus TaskStatus.FAILED = false from hb) (by decide)
  | cancel hterm =>
    refine ⟨hr.1, ?_, ?_⟩
    · intro hc
      exact absurd (show TaskStatus.CANCELLED = TaskStatus.COMPLETED from hc) (by decide)
    · intro hb
      exact absurd (show terminalStatus TaskStatus.CANCELLED = false from hb) (by decide)

theorem wstep_mono {r r' : TaskRecord} (hr : TaskInv r) (h : WStep r r') :
    r.progress_percentage ≤ r'.progress_percentage := by
  cases h with
  | advance s hs =>
    have hlive := hr.2.2 (nextStatus_nonterminal r.status s hs)
    calc r.progress_percentage = progressTable r.status := hlive
      _ ≤ progressTable s := nextStatus_progress_le r.status s hs
  | fail hterm => exact Nat.le_refl _
  | cancel hterm => exact Nat.le_refl _

theorem wstep_terminal_preserves {r r' : TaskRecord} (h : WStep r r')
    (ht : r'.status = TaskStatus.FAILED ∨ r'.status = TaskStatus.CANCELLED) :
    r'.progress_percentage = r.progress_percentage := by
  cases h with
  | advance s hs =>
    rcases nextStatus_not_terminal_target r.status s hs with ⟨h1, h2⟩
    rcases ht with ht | ht
    · exact absurd ht h1
    · exact absurd ht h2
  | fail hterm => rfl
  | cancel hterm => rfl

theorem reachable_inv {r : TaskRecord} (h : ReachableRecord r) : TaskInv r := by
  unfold ReachableRecord at h
  induction h with
  | refl =>
    refine ⟨by decide, ?_, fun _ => rfl⟩
    intro hc; exact absurd hc (by decide)
  | tail _ hstep ih => exact wstep_inv ih hstep

theorem validate_requirements_short {v : String}
    (h : (pySplit (lowerStr (pyStrip v))).length < 5) :
    validate_requirements v =
      Except.error "Requirements must be more specific (at least 5 words)" := by
  unfold validate_requirements
  rw [if_pos h]

/-! ## Claim theorems -/

/-- C1: any coding request whose requirements text has fewer than 5
whitespace-separated words is rejected by the validation inside
`start_coding_workflow` with a validation error, and the active-task registry
is left unchanged, so no Task Record is created. -/
theorem c1_short_requirements_rejected_no_task
    (registry : List (String × TaskRecord)) (taskId requirements : String)
    (h : (pySplit (lowerStr (pyStrip requirements))).length < 5) :
    (∃ e, (start_coding_workflow registry taskId requirements).1 = Except.error e) ∧
    (start_coding_workflow registry taskId requirements).2 = registry := by
  have herr : ∃ e, validate_coding_request requirements = Except.error e := by
    unfold validate_coding_request
    split
    · exact ⟨_, rfl⟩
    · split
      · exact ⟨_, rfl⟩
      · exact ⟨_, validate_requirements_short h⟩
  obtain ⟨e, he⟩ := herr
  constructor
  · exact ⟨e, by simp [start_coding_workflow, he]⟩
  · simp [start_coding_workflow, he]

/-- C1 witness: the two-word request "fix this please" is rejected and the
registry holding one prior task is unchanged. -/
theorem c1_short_requirements_rejected_no_task_witness :
    (pySplit (lowerStr (pyStrip "fix this please"))).length < 5 ∧
    ((∃ e, (start_coding_workflow [("task_a1b2c3d4", initRecord)] "task_e5f6a7b8"
        "fix this please").1 = Except.error e) ∧
     (start_coding_workflow [("task_a1b2c3d4", initRecord)] "task_e5f6a7b8"
        "fix this please").2 = [("task_a1b2c3d4", initRecord)]) :=
  ⟨by decide,
   c1_short_requirements_rejected_no_task [("task_a1b2c3d4", initRecord)]
     "task_e5f6a7b8" "fix this please" (by decide)⟩

/-- C2: a sandbox-environment creation failure during the TESTING step never
aborts the workflow: `create_test_environment` returns a failure-marked
environment record for both failure modes (an exception in the setup path, or
the container creation returning nothing) instead of raising, and the TESTING
step handler always advances to `VALIDATING`, recording `testing_failed=true`
in the statistics of the task on failure. -/
theorem c2_testing_failure_soft :
    ∀ (task_id target_service python_version suffix m : String)
      (stats : List (String × Bool)) (c : Container),
    (create_test_environment task_id target_service python_version suffix
        (.raised m)).status = EnvironmentStatus.FAILED ∧
    (create_test_environment task_id target_service python_version suffix
        (.raised m)).error_message = some m ∧
    (create_test_environment task_id target_service python_version suffix
        (.ok none)).status = EnvironmentStatus.FAILED ∧
    (create_test_environment task_id target_service python_version suffix
        (.ok none)).error_message = some "Failed to create Docker container" ∧
    testing_step (create_test_environment task_id target_service python_version suffix
        (.raised m)) stats = (TaskStatus.VALIDATING, stats ++ [("testing_failed", true)]) ∧
    testing_step (create_test_environment task_id target_service python_version suffix
        (.ok none)) stats = (TaskStatus.VALIDATING, stats ++ [("testing_failed", true)]) ∧
    testing_step (create_test_environment task_id target_service python_version suffix
        (.ok (some c))) stats = (TaskStatus.VALIDATING, stats) := by
  intro task_id target_service python_version suffix m stats c
  refine ⟨rfl, rfl, rfl, rfl, ?_, ?_, ?_⟩ <;> simp [testing_step, create_test_environment]

/-- C3: along every run of the engine loop from the freshly created Task
Record, the progress percentage stays between 0 and 100 and never decreases
across state transitions; a task reaching `COMPLETED` has progress exactly
100, and a transition into `FAILED` or `CANCELLED` preserves the last value
reached. -/
theorem c3_progress_monotone_bounded (r : TaskRecord) (h : ReachableRecord r) :
    r.progress_percentage ≤ 100 ∧
    (r.status = TaskStatus.COMPLETED → r.progress_percentage = 100) ∧
    (∀ r', WStep r r' → r.progress_percentage ≤ r'.progress_percentage) ∧
    (∀ r', WStep r r' →
      (r'.status = TaskStatus.FAILED ∨ r'.status = TaskStatus.CANCELLED) →
      r'.progress_percentage = r.progress_percentage) := by
  have hinv := reachable_inv h
  exact ⟨hinv.1, hinv.2.1,
    fun r' hs => wstep_mono hinv hs,
    fun r' hs ht => wstep_terminal_preserves hs ht⟩

/-- C3 witness: the freshly created record itself is reachable and satisfies
every conjunct. -/
theorem c3_progress_monotone_bounded_witness :
    initRecord.progress_percentage ≤ 100 ∧
    (initRecord.status = TaskStatus.COMPLETED → initRecord.progress_percentage = 100) ∧
    (∀ r', WStep initRecord r' →
      initRecord.progress_percentage ≤ r'.progress_percentage) ∧
    (∀ r', WStep initRecord r' →
      (r'.status = TaskStatus.FAILED ∨ r'.status = TaskStatus.CANCELLED) →
      r'.progress_percentage = initRecord.progress_percentage) :=
  c3_progress_monotone_bounded initRecord Relation.ReflTransGen.refl

/-- C4: a requirements text of at least 5 words composed entirely of words
from the vague-indicator list (such as improve, fix, optimize) is rejected by
`validate_requirements` with the too-vague validation error. -/
theorem c4_all_vague_words_rejected (v : String)
    (h5 : 5 ≤ (pySplit (lowerStr (pyStrip v))).length)
    (hvague : ∀ w ∈ pySplit (lowerStr (pyStrip v)), vague_indicators.contains w = true) :
    validate_requirements v =
      Except.error "Requirements are too vague. Please specify what exactly needs to be implemented." := by
  have hlen : ¬ ((pySplit (lowerStr (pyStrip v))).length < 5) := by omega
  have hall : ((pySplit (lowerStr (pyStrip v))).filter (fun w => 3 < w.length)).all
      (fun w => vague_indicators.contains w) = true :=
    List.all_eq_true.mpr fun w hw => hvague w (List.mem_filter.mp hw).1
  unfold validate_requirements
  rw [if_neg hlen, if_pos hall]

/-- C4 witness: five vague verbs in a row are rejected as too vague. -/
theorem c4_all_vague_words_rejected_witness :
    (5 ≤ (pySplit (lowerStr (pyStrip "improve optimize enhance update modify"))).length ∧
     ∀ w ∈ pySplit (lowerStr (pyStrip "improve optimize enhance update modify")),
       vague_indicators.contains w = true) ∧
    validate_requirements "improve optimize enhance update modify" =
      Except.error "Requirements are too vague. Please specify what exactly needs to be implemented." :=
  ⟨⟨by decide, by decide⟩,
   c4_all_vague_words_rejected "improve optimize enhance update modify"
     (by decide) (by decide)⟩

/-- C5: `extract_feature_name` maps the three specified requirement strings to
`status-endpoint`, `redis-caching-predictions` and `redis-caching`, and is
deterministic, giving equal outputs for equal inputs. -/
theorem c5_extract_feature_name_scenarios :
    extract_feature_name "Add a status endpoint" = "status-endpoint" ∧
    extract_feature_name "Implement Redis caching for predictions" = "redis-caching-predictions" ∧
    extract_feature_name "Implement Redis caching" = "redis-caching" ∧
    ∀ s t : String, s = t → extract_feature_name s = extract_feature_name t :=
  ⟨by decide, by decide, by decide, fun s t h => h ▸ rfl⟩

/-- C5 witness: determinism discharged at a concrete input. -/
theorem c5_extract_feature_name_scenarios_witness :
    ("Add a status endpoint" : String) = "Add a status endpoint" ∧
    extract_feature_name "Add a status endpoint" = extract_feature_name "Add a status endpoint" :=
  ⟨rfl, c5_extract_feature_name_scenarios.2.2.2 "Add a status endpoint" "Add a status endpoint" rfl⟩

/-- C6: `estimate_complexity` classifies the short health-check requirement as
low, the Redis-caching requirement as medium, and the multi-clause
authentication requirement naming JWT, role-based access control, database
integration and audit logging as high. -/
theorem c6_estimate_complexity_scenarios :
    estimate_complexity "Add health check" = "low" ∧
    estimate_complexity "Add Redis caching to the prediction endpoint with TTL configuration" = "medium" ∧
    estimate_complexity "Implement comprehensive authentication system with JWT tokens, role-based access control, user management, database integration, and audit logging" = "high" :=
  ⟨by decide, by decide, by decide⟩

/-- C8: when staging finds no changes relative to HEAD, `commit_changes`
returns the empty commit id instead of raising and the commit history is
unchanged. -/
theorem c8_commit_nothing_staged (st : RepoState) (commit_message : String)
    (file_paths : Option (List String)) (h : staged_for st file_paths = []) :
    commit_changes st commit_message file_paths = ("", st) ∧
    (commit_changes st commit_message file_paths).2.commits = st.commits := by
  have : commit_changes st commit_message file_paths = ("", st) := by
    simp [commit_changes, h]
  exact ⟨this, by rw [this]⟩

/-- C8 witness: committing in a clean repository returns the empty commit id
and leaves the (empty) history unchanged. -/
theorem c8_commit_nothing_staged_witness :
    staged_for { commits := [], pending_changes := [] } none = [] ∧
    commit_changes { commits := [], pending_changes := [] } "feat: nothing" none =
      ("", { commits := [], pending_changes := [] }) :=
  ⟨rfl, (c8_commit_nothing_staged { commits := [], pending_changes := [] }
      "feat: nothing" none rfl).1⟩

/-- C9: a requirements text of at least 5 whitespace-separated words in which
no word is longer than 3 characters is rejected with the too-vague validation
error even though no word is on the vague-indicator list, because the
all-vague check ranges over the empty set of words longer than 3 characters
and is vacuously true. -/
theorem c9_short_words_vacuously_vague (v : String)
    (h5 : 5 ≤ (pySplit (lowerStr (pyStrip v))).length)
    (hshort : ∀ w ∈ pySplit (lowerStr (pyStrip v)), w.length ≤ 3)
    (_hnone : ∀ w ∈ pySplit (lowerStr (pyStrip v)), vague_indicators.contains w = false) :
    validate_requirements v =
      Except.error "Requirements are too vague. Please specify what exactly needs to be implemented." := by
  have hlen : ¬ ((pySplit (lowerStr (pyStrip v))).length < 5) := by omega
  have hall : ((pySplit (lowerStr (pyStrip v))).filter (fun w => 3 < w.length)).all
      (fun w => vague_indicators.contains w) = true := by
    refine List.all_eq_true.mpr fun w hw => ?_
    have hmem := List.mem_filter.mp hw
    have h3 : 3 < w.length := by simpa using hmem.2
    have := hshort w hmem.1
    omega
  unfold validate_requirements
  rw [if_neg hlen, if_pos hall]

/-- C9 witness: five three-letter animal words, none on the vague list, are
rejected as too vague. -/
theorem c9_short_words_vacuously_vague_witness :
    (5 ≤ (pySplit (lowerStr (pyStrip "cat dog cow pig hen"))).length ∧
     (∀ w ∈ pySplit (lowerStr (pyStrip "cat dog cow pig hen")), w.length ≤ 3) ∧
     (∀ w ∈ pySplit (lowerStr (pyStrip "cat dog cow pig hen")),
        vague_indicators.contains w = false)) ∧
    validate_requirements "cat dog cow pig hen" =
      Except.error "Requirements are too vague. Please specify what exactly needs to be implemented." :=
  ⟨⟨by decide, by decide, by decide⟩,
   c9_short_words_vacuously_vague "cat dog cow pig hen"
     (by decide) (by decide) (by decide)⟩

/-- C10: `execute_command` is total over its error cases and converts every
outcome of the underlying exec call into a `CommandResult` without
propagating: a timeout gives exit code 124 with empty stdout and the timeout
message in stderr, any other internal failure gives exit code 1 with the
error text in stderr, and completion carries the exit code and decoded
output. -/
theorem c10_execute_command_total :
    ∀ (command : String) (timeoutSecs : Nat) (m : String) (ec : Int) (out : Option String),
    execute_command ExecOutcome.timedOut command timeoutSecs =
      { exit_code := 124, stdout := "",
        stderr := "Command timed out after " ++ toString timeoutSecs ++ " seconds",
        command := command, duration_seconds := timeoutSecs } ∧
    execute_command (ExecOutcome.raised m) command timeoutSecs =
      { exit_code := 1, stdout := "", stderr := m,
        command := command, duration_seconds := 0 } ∧
    execute_command (ExecOutcome.completed ec out) command timeoutSecs =
      { exit_code := ec, stdout := out.getD "", stderr := "",
        command := command, duration_seconds := 0 } :=
  fun _ _ _ _ _ => ⟨rfl, rfl, rfl⟩

/-- C7 counterexample: with six changed files, the sixth file name does not
occur anywhere in the generated commit message, so the message does not name
every changed file as the claim states. -/
theorem c7_counterexample_sixth_file_unnamed :
    ("changed6.py" ∈ ["changed1.py", "changed2.py", "changed3.py", "changed4.py",
        "changed5.py", "changed6.py"]) ∧
    occurs ("changed6.py").data
      (generate_commit_message "Add stuff now"
        ["changed1.py", "changed2.py", "changed3.py", "changed4.py",
         "changed5.py", "changed6.py"] "feature").data = false :=
  ⟨by decide, by decide⟩

/-- C7 (amended): for every requirements string and list of changed files,
`generate_commit_message` returns a message that starts with the summary line
`feat:` followed by the first 50 characters of the requirement (with `...`
appended when the requirement exceeds 50 characters, and the full requirement
otherwise), and contains a bullet line naming each of the first five changed
files; files beyond the fifth are only summarised by a count line: when more
than five files changed, the `... and N more files` line occurs in the
message, and the message is invariant under replacing the files beyond the
fifth by any other files of the same number, so those files are not named
individually. -/
theorem c7_commit_message_shape (requirements implementation_type : String)
    (files_changed : List String) :
    (∃ rest, generate_commit_message requirements files_changed implementation_type =
        (if 50 < requirements.length then
          "feat: " ++ (⟨requirements.data.take 50⟩ : String) ++ "..."
        else "feat: " ++ requirements) ++ "\n\n" ++ rest) ∧
    (∀ f ∈ files_changed.take 5,
      occurs ("  - " ++ f).data
        (generate_commit_message requirements files_changed implementation_type).data = true) ∧
    (5 < files_changed.length →
      occurs ("  - ... and " ++ toString (files_changed.length - 5) ++ " more files").data
        (generate_commit_message requirements files_changed implementation_type).data = true) ∧
    (∀ first5 extra extra2 : List String, first5.length = 5 →
      extra.length = extra2.length →
      generate_commit_message requirements (first5 ++ extra) implementation_type =
        generate_commit_message requirements (first5 ++ extra2) implementation_type) := by
  refine ⟨⟨pyJoin "\n" (commit_details files_changed implementation_type), rfl⟩, ?_, ?_, ?_⟩
  · intro f hf
    have hmem : ("  - " ++ f) ∈ commit_details files_changed implementation_type := by
      cases files_changed with
      | nil => simp at hf
      | cons x xs =>
        have hmap : ("  - " ++ f) ∈ ((x :: xs).take 5).map (fun g => "  - " ++ g) :=
          List.mem_map_of_mem _ hf
        simp only [commit_details, List.isEmpty_cons, if_neg]
        refine List.mem_append.mpr (Or.inl ?_)
        refine List.mem_append.mpr (Or.inr ?_)
        refine List.mem_append.mpr (Or.inl ?_)
        exact List.mem_append.mpr (Or.inr hmap)
    have hjoin := occurs_pyJoin "\n" (commit_details files_changed implementation_type)
      ("  - " ++ f) hmem
    show occurs ("  - " ++ f).data
      (commit_summary requirements ++ "\n\n" ++
        pyJoin "\n" (commit_details files_changed implementation_type)).data = true
    rw [str_data_append]
    exact occurs_append_left _ _ _ hjoin
  · intro hmore
    have hmem : ("  - ... and " ++ toString (files_changed.length - 5) ++ " more files")
        ∈ commit_details files_changed implementation_type := by
      cases files_changed with
      | nil => simp at hmore
      | cons x xs =>
        have hline : ("  - ... and " ++ toString ((x :: xs).length - 5) ++ " more files")
            ∈ (if 5 < (x :: xs).length then
                ["  - ... and " ++ toString ((x :: xs).length - 5) ++ " more files"]
              else []) := by
          rw [if_pos hmore]
          exact List.mem_singleton.mpr rfl
        simp only [commit_details, List.isEmpty_cons, if_neg]
        refine List.mem_append.mpr (Or.inl ?_)
        refine List.mem_append.mpr (Or.inr ?_)
        exact List.mem_append.mpr (Or.inr hline)
    have hjoin := occurs_pyJoin "\n" (commit_details files_changed implementation_type)
      ("  - ... and " ++ toString (files_changed.length - 5) ++ " more files") hmem
    show occurs ("  - ... and " ++ toString (files_changed.length - 5) ++ " more files").data
      (commit_summary requirements ++ "\n\n" ++
        pyJoin "\n" (commit_details files_changed implementation_type)).data = true
    rw [str_data_append]
    exact occurs_append_left _ _ _ hjoin
  · intro first5 extra extra2 hfive hlen
    cases first5 with
    | nil => simp at hfive
    | cons a as =>
      have hlen2 : ((a :: as) ++ extra).length = ((a :: as) ++ extra2).length := by
        simp [hlen]
      have htake : ((a :: as) ++ extra).take 5 = ((a :: as) ++ extra2).take 5 := by
        rw [List.take_append_eq_append_take, List.take_append_eq_append_take]
        have h0 : 5 - (a :: as).length = 0 := by rw [hfive]
        rw [h0]
        simp
      have hdet : commit_details ((a :: as) ++ extra) implementation_type =
          commit_details ((a :: as) ++ extra2) implementation_type := by
        unfold commit_details
        rw [hlen2, htake,
          show ((a :: as) ++ extra).isEmpty = ((a :: as) ++ extra2).isEmpty from rfl]
      unfold generate_commit_message
      rw [hdet]

/-- C7 witness: the amended shape discharged at concrete inputs: the bullet
line of a single changed file occurs in the message, the more-files count
line occurs for a six-file list, and replacing the sixth file changes
nothing. -/
theorem c7_commit_message_shape_witness :
    ("status.py" ∈ (["status.py"] : List String).take 5) ∧
    occurs ("  - status.py").data
      (generate_commit_message "Add status endpoint" ["status.py"] "feature").data = true ∧
    occurs ("  - ... and 1 more files").data
      (generate_commit_message "Add stuff now"
        ["a1.py", "a2.py", "a3.py", "a4.py", "a5.py", "a6.py"] "feature").data = true ∧
    generate_commit_message "Add stuff now"
        (["a1.py", "a2.py", "a3.py", "a4.py", "a5.py"] ++ ["a6.py"]) "feature" =
      generate_commit_message "Add stuff now"
        (["a1.py", "a2.py", "a3.py", "a4.py", "a5.py"] ++ ["b6.py"]) "feature" :=
  ⟨by decide,
   (c7_commit_message_shape "Add status endpoint" "feature" ["status.py"]).2.1
     "status.py" (by decide),
   (c7_commit_message_shape "Add stuff now" "feature"
     ["a1.py", "a2.py", "a3.py", "a4.py", "a5.py", "a6.py"]).2.2.1 (by decide),
   (c7_commit_message_shape "Add stuff now" "feature" []).2.2.2
     ["a1.py", "a2.py", "a3.py", "a4.py", "a5.py"] ["a6.py"] ["b6.py"]
     (by decide) (by decide)⟩

end CodingAgent
